import Mathlib

/-!
# Verification of the OASIS Cartograph core against its specification

A shallow embedding of the core JavaScript of the repository:

* `CSVParser` (record normalization, coordinate/boolean/number parsing)
  from `public/js/sceneManager.js`;
* `StarSystem.updateVisibility` from `public/js/starSystem.js`;
* `SceneManager` hover picking, camera interaction state and the idle
  auto-rotation step from `public/js/sceneManager.js`;
* `createRouteVisualization` (route overlay rebuild) from the unnamed
  variant file.

JavaScript numbers are modelled as exact rationals (`ℚ`); the inputs under
study are small decimal literals, for which IEEE doubles are exact, so no
floating-point behaviour is lost.  JavaScript's dynamically typed record
fields are modelled by the sum type `JSVal`.
-/

/-! ## String and number primitives (fragments of the JS builtins used) -/

/-- Numeric value of a list of decimal digit characters. -/
def digitsToNat (ds : List Char) : ℕ :=
  ds.foldl (fun a c => 10 * a + (c.toNat - '0'.toNat)) 0

/-- Model of JavaScript `parseInt(value, 10)` on the decimal fragment:
skip leading whitespace, optional sign, then the maximal run of leading
decimal digits; `none` models `NaN` (no digits).  Exponent forms and
non-decimal radix prefixes do not occur in the data under study. -/
def jsParseInt (s : String) : Option ℤ :=
  let cs := s.toList.dropWhile Char.isWhitespace
  let signAndRest : ℤ × List Char :=
    match cs with
    | '-' :: r => (-1, r)
    | '+' :: r => (1, r)
    | r => (1, r)
  let ds := signAndRest.2.takeWhile Char.isDigit
  if ds = [] then none else some (signAndRest.1 * (digitsToNat ds : ℤ))

/-- Model of JavaScript `parseFloat` on the decimal fragment: skip leading
whitespace, optional sign, integer digits, optional `.` and fraction
digits; trailing junk is ignored; `none` models `NaN` (no digits at all).
Exponent forms and `Infinity` do not occur in the data under study.  The
value `sign · (i + f / 10^k)` is assembled as the single quotient
`sign · (i · 10^k + f) / 10^k` so that it is built by `mkRat` (the
generic rational operations are `irreducible` and would block kernel
evaluation). -/
def jsParseFloat (s : String) : Option ℚ :=
  let cs := s.toList.dropWhile Char.isWhitespace
  let signAndRest : ℤ × List Char :=
    match cs with
    | '-' :: r => (-1, r)
    | '+' :: r => (1, r)
    | r => (1, r)
  let intDs := signAndRest.2.takeWhile Char.isDigit
  let rest := signAndRest.2.dropWhile Char.isDigit
  let fracDs : List Char :=
    match rest with
    | '.' :: r => r.takeWhile Char.isDigit
    | _ => []
  if intDs = [] ∧ fracDs = [] then none
  else some (mkRat
    (signAndRest.1 * ((digitsToNat intDs : ℤ) * 10 ^ fracDs.length + (digitsToNat fracDs : ℤ)))
    (10 ^ fracDs.length))

/-- JS `String.prototype.trim` (on the whitespace classes occurring in the
data): drop whitespace from both ends of a character list. -/
def trimChars (cs : List Char) : List Char :=
  ((cs.dropWhile Char.isWhitespace).reverse.dropWhile Char.isWhitespace).reverse

/-- JS `String.prototype.trim` as a string function. -/
def jsTrim (s : String) : String :=
  String.mk (trimChars s.toList)

/-- JS `String.prototype.toLowerCase` on the ASCII fragment. -/
def jsToLower (s : String) : String :=
  String.mk (s.toList.map Char.toLower)

/-- JS `String.prototype.split(sep)` for a one-character separator:
`"a//".split('/') = ["a", "", ""]`, `"".split('/') = [""]`. -/
def splitOnChar (sep : Char) : List Char → List (List Char)
  | [] => [[]]
  | c :: rest =>
    if c = sep then [] :: splitOnChar sep rest
    else
      match splitOnChar sep rest with
      | h :: t => (c :: h) :: t
      | [] => [[c]]

/-- `splitOnChar` as a string function. -/
def jsSplitChar (sep : Char) (s : String) : List String :=
  (splitOnChar sep s.toList).map String.mk

/-- Model of JavaScript `String.prototype.split(/\s+/)`: split on maximal
runs of whitespace; a leading (resp. trailing) run contributes a leading
(resp. trailing) empty field, as in JS.  The first argument records
whether the previous character was part of a whitespace run, the second
accumulates the current field in reverse. -/
def splitWsAux (prevWs : Bool) (acc : List Char) : List Char → List String
  | [] => [String.mk acc.reverse]
  | c :: rest =>
    if c.isWhitespace then
      if prevWs then splitWsAux true acc rest
      else String.mk acc.reverse :: splitWsAux true [] rest
    else splitWsAux false (c :: acc) rest

/-- Split a string on maximal whitespace runs (JS `split(/\s+/)`). -/
def splitWs (s : String) : List String :=
  splitWsAux false [] s.toList

/-- Collapse every maximal whitespace run to a single space
(JS `replace(/\s+/g, ' ')`); the flag records whether the previous
character was whitespace. -/
def collapseWsAux (prevWs : Bool) : List Char → List Char
  | [] => []
  | c :: rest =>
    if c.isWhitespace then
      if prevWs then collapseWsAux true rest
      else ' ' :: collapseWsAux true rest
    else c :: collapseWsAux false rest

/-- Collapse every maximal whitespace run to a single space. -/
def collapseWs (cs : List Char) : List Char :=
  collapseWsAux false cs

/-- Remove one surrounding quote character on each side
(JS `replace(/^["']|["']$/g, '')`): one leading `"` or `'` if present,
then one trailing `"` or `'` if present in the remainder. -/
def stripQuotes (cs : List Char) : List Char :=
  let cs1 := match cs with
    | '"' :: r => r
    | '\'' :: r => r
    | r => r
  match cs1.reverse with
  | '"' :: r => r.reverse
  | '\'' :: r => r.reverse
  | _ => cs1

/-! ## CSVParser (from `public/js/sceneManager.js`)

Record fields in the JS code are dynamically typed: raw parse output holds
strings, `createSystemObject` mutates fields into booleans, numbers and a
coordinate object.  `JSVal` models the values such a field can hold. -/

/-- A JavaScript value as stored in a system record field. -/
inductive JSVal where
  | vStr : String → JSVal
  | vNum : ℚ → JSVal
  | vBool : Bool → JSVal
  /-- The `{x, y, z}` coordinate object produced by `parseCoordinates`. -/
  | vCoords : ℚ → ℚ → ℚ → JSVal
  deriving DecidableEq, Repr

/-- The system record with the fields `createSystemObject` reads and
writes (`public/js/sceneManager.js`, `createSystemObject`). -/
structure SysObj where
  systemName : JSVal
  coordinates : JSVal
  isClaimed : JSVal
  primaryPortComplete : JSVal
  isArchitect : JSVal
  orbitalSlots : JSVal
  planetarySlots : JSVal
  asteroidBaseSlots : JSVal
  narrative : JSVal
  cmdrName : JSVal
  discordName : JSVal
  deriving DecidableEq, Repr

/-- `CSVParser.parseBoolean`: a boolean is returned unchanged, a
non-string is `false`, and a string is `true` exactly for
(case-insensitive, trimmed) `yes`, `true`, `1`. -/
def parseBoolean : JSVal → Bool
  | .vBool b => b
  | .vStr s =>
    let n := jsTrim (jsToLower s)
    n = "yes" ∨ n = "true" ∨ n = "1"
  | _ => false

/-- `CSVParser.parseNumber`: `parseInt(value, 10)`, with `NaN` replaced by
`0`.  A numeric argument round-trips through its decimal string, hence is
truncated toward zero; booleans and objects stringify without leading
digits, hence give `NaN` → `0`. -/
def parseNumber : JSVal → ℤ
  | .vStr s => (jsParseInt s).getD 0
  | .vNum q => q.num.tdiv (q.den : ℤ)
  | _ => 0

/-- `CSVParser.cleanText`: the empty string for falsy or non-string input,
otherwise trim, strip one surrounding quote pair, collapse whitespace. -/
def cleanText : JSVal → String
  | .vStr s => String.mk (collapseWs (stripQuotes (trimChars s.toList)))
  | _ => ""

/-- `CSVParser.parseCoordinates` on its string core (the input has already
passed the `typeof === 'string'` and truthiness guards): trim, split on
`/`, else on `,`, else on whitespace — each attempt kept only when it
yields exactly three fields — then `parseFloat` each trimmed field,
failing on any `NaN`. -/
def parseCoordinates (coordString : String) : Option (ℚ × ℚ × ℚ) :=
  if coordString = "" then none
  else
    let cleanCoords := jsTrim coordString
    let parts0 := jsSplitChar '/' cleanCoords
    let parts1 := if parts0.length = 3 then parts0 else jsSplitChar ',' cleanCoords
    let parts := if parts1.length = 3 then parts1 else splitWs cleanCoords
    match parts with
    | [p0, p1, p2] =>
      match jsParseFloat (jsTrim p0), jsParseFloat (jsTrim p1), jsParseFloat (jsTrim p2) with
      | some x, some y, some z => some (x, y, z)
      | _, _, _ => none
    | _ => none

/-- `CSVParser.parseCoordinates` on a dynamically typed field: the source
returns `null` for any falsy or non-string argument
(`!coordString || typeof coordString !== 'string'`). -/
def parseCoordinatesVal : JSVal → Option (ℚ × ℚ × ℚ)
  | .vStr s => parseCoordinates s
  | _ => none

/-- `CSVParser.createSystemObject`, after the header→field mapping:
reject an empty (or non-string, which would throw and be caught) system
name, parse the coordinates, canonicalize booleans, numbers and text
fields, then reject records with no commander name that are not claimed.
`none` models the `null` returns (including the `catch`). -/
def createSystemObject (s : SysObj) : Option SysObj :=
  match s.systemName with
  | .vStr name =>
    if jsTrim name = "" then none
    else
      match parseCoordinatesVal s.coordinates with
      | none => none
      | some (x, y, z) =>
        let claimed := parseBoolean s.isClaimed
        let cmdr := cleanText s.cmdrName
        if cmdr = "" ∧ claimed = false then none
        else some
          { systemName := .vStr (cleanText s.systemName)
            coordinates := .vCoords x y z
            isClaimed := .vBool claimed
            primaryPortComplete := .vBool (parseBoolean s.primaryPortComplete)
            isArchitect := .vBool (parseBoolean s.isArchitect)
            orbitalSlots := .vNum (parseNumber s.orbitalSlots : ℤ)
            planetarySlots := .vNum (parseNumber s.planetarySlots : ℤ)
            asteroidBaseSlots := .vNum (parseNumber s.asteroidBaseSlots : ℤ)
            narrative := .vStr (cleanText s.narrative)
            cmdrName := .vStr cmdr
            discordName := .vStr (cleanText s.discordName) }
  | _ => none

/-- A raw (all string fields, as delivered by the CSV row parser) system
record. -/
def mkRawSystem (name coords claimed port architect orb plan ast narr cmdr
    discord : String) : SysObj :=
  { systemName := .vStr name
    coordinates := .vStr coords
    isClaimed := .vStr claimed
    primaryPortComplete := .vStr port
    isArchitect := .vStr architect
    orbitalSlots := .vStr orb
    planetarySlots := .vStr plan
    asteroidBaseSlots := .vStr ast
    narrative := .vStr narr
    cmdrName := .vStr cmdr
    discordName := .vStr discord }

/-- The specification's reading of coordinate parsing, for comparison with
`parseCoordinates`.  Modelled from the spec's words: "coordinate parsing
accepts delimiters `/`, `,`, or whitespace, trying each in order until
three finite numbers are obtained" — an attempt succeeds only when the
split yields three fields that all parse as finite numbers, and otherwise
the next delimiter is tried. -/
def parseCoordinatesSpecWords (coordString : String) : Option (ℚ × ℚ × ℚ) :=
  let clean := jsTrim coordString
  let attempt : List String → Option (ℚ × ℚ × ℚ) := fun parts =>
    match parts with
    | [p0, p1, p2] =>
      match jsParseFloat (jsTrim p0), jsParseFloat (jsTrim p1), jsParseFloat (jsTrim p2) with
      | some x, some y, some z => some (x, y, z)
      | _, _, _ => none
    | _ => none
  (attempt (jsSplitChar '/' clean)).orElse fun _ =>
    (attempt (jsSplitChar ',' clean)).orElse fun _ =>
      attempt (splitWs clean)

/-! ## StarSystem visibility filter (from `public/js/starSystem.js`)
and the filter toggles (from `public/js/uiController.js`). -/

/-- The `UIController.filters` toggle set. -/
structure Filters where
  showClaimed : Bool
  showUnclaimed : Bool
  showPortComplete : Bool
  showPortIncomplete : Bool
  deriving DecidableEq, Repr

/-- The default filter state (`uiController.js` constructor: all `true`). -/
def defaultFilters : Filters :=
  { showClaimed := true, showUnclaimed := true
    showPortComplete := true, showPortIncomplete := true }

/-- `StarSystem.updateVisibility` (`starSystem.js`): the visibility a
system with the given `isClaimed` / `primaryPortComplete` flags receives
under the given filters.  The port-completion toggles only apply to
claimed systems, exactly as in the source's `if (this.isClaimed)` block. -/
def updateVisibility (isClaimed primaryPortComplete : Bool) (f : Filters) : Bool :=
  let v := true
  let v := if isClaimed && !f.showClaimed then false else v
  let v := if !isClaimed && !f.showUnclaimed then false else v
  if isClaimed then
    let v := if primaryPortComplete && !f.showPortComplete then false else v
    if !primaryPortComplete && !f.showPortIncomplete then false else v
  else v

/-! ## SceneManager hover picking (from `public/js/sceneManager.js`,
`onMouseMove`).

Star systems are identified by an abstract index (`ℕ`); object identity
(`!==`) on distinct `StarSystem` instances is modelled by index equality.
A `PickHit` is one entry of the raycaster's intersection list: the hit
system, its `isVisible` flag at pick time and the intersection
distance. -/

/-- One raycaster intersection entry. -/
structure PickHit where
  sys : ℕ
  visible : Bool
  dist : ℚ
  deriving Repr

/-- The hover loop of `onMouseMove`: the closest intersection whose
system is visible (`starSystem.isVisible && intersect.distance <
closestDistance`, starting from `closestDistance = Infinity`). -/
def pickClosest (hits : List PickHit) : Option ℕ :=
  (hits.foldl
    (fun acc h =>
      match acc with
      | none => if h.visible then some (h.sys, h.dist) else none
      | some (s, d) => if h.visible && decide (h.dist < d) then some (h.sys, h.dist) else some (s, d))
    none).map Prod.fst

/-- Mutable state read and written by `onMouseMove`. -/
structure HoverState where
  hovered : Option ℕ
  autoRotate : Bool
  userHasInteracted : Bool
  deriving DecidableEq, Repr

/-- Hover events: `hoverEnd s` is `s.setHovered(false)` on the previous
target, `hoverStart s` is `s.setHovered(true)` plus the `onSystemHover`
callback on the new target. -/
inductive HoverEv where
  | hoverEnd : ℕ → HoverEv
  | hoverStart : ℕ → HoverEv
  deriving DecidableEq, Repr

/-- `SceneManager.onMouseMove`: no processing while auto-rotating without
prior interaction; otherwise pick the closest visible hit and, exactly
when the picked target differs from the current hover, emit a hover-end
for the old target (if any) followed by a hover-start for the new one
(if any). -/
def onMouseMove (st : HoverState) (hits : List PickHit) : HoverState × List HoverEv :=
  if st.autoRotate && !st.userHasInteracted then (st, [])
  else
    let newH := pickClosest hits
    if newH = st.hovered then (st, [])
    else
      ({ st with hovered := newH },
        (st.hovered.toList.map HoverEv.hoverEnd) ++ (newH.toList.map HoverEv.hoverStart))

/-- Count of hover-end events in an event list. -/
def countEnd (evs : List HoverEv) : ℕ :=
  evs.countP fun e => match e with | .hoverEnd _ => true | _ => false

/-- Count of hover-start events in an event list. -/
def countStart (evs : List HoverEv) : ℕ :=
  evs.countP fun e => match e with | .hoverStart _ => true | _ => false

/-! ## SceneManager camera interaction state machine
(`createControls` / `setupEventListeners` / `animate`). -/

/-- Events driving the auto-rotation state: `controlsStart` is the
OrbitControls `start` event (fired on drag, wheel and touch interaction),
`mouseDown` the direct `mousedown` listener, `frame` a render-loop tick
with no interaction. -/
inductive CamEvent where
  | controlsStart
  | mouseDown
  | frame
  deriving DecidableEq, Repr

/-- The two flags of the camera state machine. -/
structure CamState where
  autoRotate : Bool
  userHasInteracted : Bool
  deriving DecidableEq, Repr

/-- Constructor state: `autoRotate = true`, `userHasInteracted = false`. -/
def camInit : CamState := { autoRotate := true, userHasInteracted := false }

/-- One event step: the `controls.addEventListener('start', ...)` handler
flips both flags when `autoRotate` is set; the `mousedown` handler does
the same under `autoRotate && !userHasInteracted`; a plain frame changes
nothing. -/
def camStep (st : CamState) (e : CamEvent) : CamState :=
  match e with
  | .controlsStart =>
    if st.autoRotate then { autoRotate := false, userHasInteracted := true } else st
  | .mouseDown =>
    if st.autoRotate && !st.userHasInteracted then
      { autoRotate := false, userHasInteracted := true }
    else st
  | .frame => st

/-- The state after a session's event sequence, from the constructor
state. -/
def camRun (es : List CamEvent) : CamState :=
  es.foldl camStep camInit

/-- The guard of the auto-orbit/auto-tour block in `animate()`:
`this.autoRotate && !this.userHasInteracted`. -/
def idleAuto (st : CamState) : Bool :=
  st.autoRotate && !st.userHasInteracted

/-- An interaction event in the sense of the spec (drag-start / wheel /
touch arrive as `controlsStart`; pointer-down as `mouseDown`). -/
def isInteraction (e : CamEvent) : Bool :=
  match e with
  | .controlsStart => true
  | .mouseDown => true
  | .frame => false

/-! ## SceneManager idle auto-orbit step (from `animate()`). -/

/-- `this.autoRotateSpeed` (degrees per second, `sceneManager.js`
constructor). -/
def autoRotateSpeed : ℚ := 8

/-- The per-frame orbit angle, in degrees, computed in `animate()` while
idle: `rotationSpeed = this.autoRotateSpeed * 0.016` — a fixed constant
per frame; the frame's actual elapsed wall-clock time `dtMs` is not
consulted by the source. -/
def frameRotationDeg (_dtMs : ℚ) : ℚ :=
  autoRotateSpeed * (16 / 1000)

/-- Total orbit rotation, in degrees, accumulated over a sequence of
frames whose wall-clock durations (milliseconds) are listed. -/
def totalRotationDeg (dts : List ℚ) : ℚ :=
  (dts.map frameRotationDeg).sum

/-- Wall-clock duration of a frame sequence. -/
def wallClock (dts : List ℚ) : ℚ :=
  dts.sum

/-! ## SceneManager visible-system statistics
(`getVisibleSystemStats`). -/

/-- The per-system view state read by `getVisibleSystemStats`. -/
structure VisSys where
  isVisible : Bool
  isClaimed : Bool
  primaryPortComplete : Bool
  deriving DecidableEq, Repr

/-- The statistics object; counts are JS numbers, modelled as `ℤ` since
`portIncomplete` is produced by subtraction. -/
structure SysStats where
  total : ℤ
  claimed : ℤ
  unclaimed : ℤ
  portComplete : ℤ
  portIncomplete : ℤ
  deriving DecidableEq, Repr

/-- `SceneManager.getVisibleSystemStats`: filter the visible systems,
count the claimed and port-complete ones among them (the port-complete
filter does not test `isClaimed`), and derive `unclaimed` and
`portIncomplete` by subtraction. -/
def getVisibleSystemStats (systems : List VisSys) : SysStats :=
  let visible := systems.filter fun s => s.isVisible
  let claimed := visible.filter fun s => s.isClaimed
  let portComplete := visible.filter fun s => s.primaryPortComplete
  { total := visible.length
    claimed := claimed.length
    unclaimed := (visible.length : ℤ) - (claimed.length : ℤ)
    portComplete := portComplete.length
    portIncomplete := (claimed.length : ℤ) - (portComplete.length : ℤ) }

/-! ## Route overlay (from the unnamed variant file,
`createRouteVisualization` / `parseCoordinates(data)`).

The scene's route overlay content is modelled as `Option RouteGroup`:
`none` when no overlay group is in the scene.  `combinedData` being
loaded is the `catalogLoaded` flag. -/

/-- One row of the route waypoint table; `claimedCell` / `completedCell`
are the raw `claimed?_` / `completed?_` cells (compared against the exact
string `TRUE` in the source). -/
structure RouteWaypoint where
  system_name : String
  claimedCell : String
  completedCell : String
  deriving DecidableEq, Repr

/-- A catalog entry as consumed by the route overlay: `coords` is the
optional `{x, y, z}` object, each component `none` when `Number()`
conversion would give `NaN`. -/
structure RouteSystem where
  name : String
  coords : Option (Option ℚ × Option ℚ × Option ℚ)
  requirePermit : Bool
  deriving DecidableEq, Repr

/-- The variant file's `parseCoordinates(data)`: require a present
coordinate object whose three components convert to numbers. -/
def parseCoordinatesObj (data : RouteSystem) : Option (ℚ × ℚ × ℚ) :=
  match data.coords with
  | none => none
  | some (ox, oy, oz) =>
    match ox, oy, oz with
    | some x, some y, some z => some (x, y, z)
    | _, _, _ => none

/-- The per-waypoint state stored in the `routeSystems` map. -/
structure RouteSystemData where
  position : ℚ × ℚ × ℚ
  claimed : Bool
  completed : Bool
  requirePermit : Bool
  deriving DecidableEq, Repr

/-- JS `Map.prototype.set` on an association list: overwrite in place if
the key is present, else append. -/
def mapSet (m : List (String × RouteSystemData)) (k : String) (v : RouteSystemData) :
    List (String × RouteSystemData) :=
  if k ∈ m.map Prod.fst then
    m.map fun p => if p.1 = k then (k, v) else p
  else m ++ [(k, v)]

/-- Resolution of a single waypoint in the first pass of
`createRouteVisualization`: skip blank names, look the system up by exact
name (`Array.prototype.find`), parse its coordinates; on success return
the key/value pair entered into `routeSystems`. -/
def resolveWp (systems : List RouteSystem) (wp : RouteWaypoint) :
    Option (String × RouteSystemData) :=
  if jsTrim wp.system_name = "" then none
  else
    match systems.find? fun s => s.name = wp.system_name with
    | none => none
    | some sd =>
      (parseCoordinatesObj sd).map fun pos =>
        (wp.system_name,
          { position := pos
            claimed := wp.claimedCell = "TRUE"
            completed := wp.completedCell = "TRUE"
            requirePermit := sd.requirePermit })

/-- One iteration of the first pass of `createRouteVisualization`:
a resolved waypoint appends its position to the `points` array and enters
the `routeSystems` map; an unresolved one is skipped. -/
def routeStep (systems : List RouteSystem)
    (acc : List (ℚ × ℚ × ℚ) × List (String × RouteSystemData)) (wp : RouteWaypoint) :
    List (ℚ × ℚ × ℚ) × List (String × RouteSystemData) :=
  match resolveWp systems wp with
  | none => acc
  | some (n, d) => (acc.1 ++ [d.position], mapSet acc.2 n d)

/-- The first pass of `createRouteVisualization`: accumulate the `points`
array (one entry per resolved waypoint occurrence) and the `routeSystems`
map (keyed by system name). -/
def resolveWaypoints (systems : List RouteSystem) (routeData : List RouteWaypoint) :
    List (ℚ × ℚ × ℚ) × List (String × RouteSystemData) :=
  routeData.foldl (routeStep systems) ([], [])

/-- Fold a list of names into an accumulator, appending each name not yet
present: the key order a JS `Map` ends up with after the corresponding
`set` calls. -/
def nameFold (ks : List String) : List String → List String
  | [] => ks
  | n :: rest => nameFold (if n ∈ ks then ks else ks ++ [n]) rest

/-- Marker color priority: completed (green) > in-progress, i.e. claimed
and not completed (orange) > permit required (red) > default (yellow). -/
def markerColor (d : RouteSystemData) : ℕ :=
  if d.completed then 0x00ff00
  else if d.claimed && !d.completed then 0xffa500
  else if d.requirePermit then 0xff0000
  else 0xffff00

/-- One status marker of the waypoint group. -/
structure RouteMarker where
  systemName : String
  position : ℚ × ℚ × ℚ
  color : ℕ
  deriving DecidableEq, Repr

/-- The route overlay group: the polyline's points and the status
markers. -/
structure RouteGroup where
  linePoints : List (ℚ × ℚ × ℚ)
  markers : List RouteMarker
  deriving DecidableEq, Repr

/-- `createRouteVisualization`: when the catalog is not loaded the scene
is left untouched; otherwise the previous overlay is removed from the
scene, and when at least one waypoint resolves a fresh group (polyline
through all resolved points, one marker per `routeSystems` entry) is
added. -/
def createRouteVisualization (catalogLoaded : Bool) (systems : List RouteSystem)
    (routeData : List RouteWaypoint) (scene : Option RouteGroup) : Option RouteGroup :=
  if !catalogLoaded then scene
  else
    let r := resolveWaypoints systems routeData
    if r.1 = [] then none
    else some
      { linePoints := r.1
        markers := r.2.map fun p =>
          { systemName := p.1, position := p.2.position, color := markerColor p.2 } }

/-- Marker count of the scene's route overlay. -/
def sceneMarkerCount (scene : Option RouteGroup) : ℕ :=
  match scene with
  | none => 0
  | some g => g.markers.length

/-- The names of the waypoints of a route that resolve against the
catalog, in route order, one entry per occurrence. -/
def resolvedNames (systems : List RouteSystem) (routeData : List RouteWaypoint) : List String :=
  (routeData.filterMap (resolveWp systems)).map Prod.fst

/-- C1: filter scenario on the catalog A (claimed, port complete),
B (claimed, port incomplete), C (unclaimed, either port flag): with all
four toggles on all of A, B, C are visible; turning `showUnclaimed` off
hides exactly C; additionally turning `showPortIncomplete` off also hides
B, leaving only A visible. -/
theorem claim1_updateVisibility_scenario :
    (updateVisibility true true defaultFilters = true ∧
     updateVisibility true false defaultFilters = true ∧
     updateVisibility false true defaultFilters = true ∧
     updateVisibility false false defaultFilters = true) ∧
    (updateVisibility true true { defaultFilters with showUnclaimed := false } = true ∧
     updateVisibility true false { defaultFilters with showUnclaimed := false } = true ∧
     updateVisibility false true { defaultFilters with showUnclaimed := false } = false ∧
     updateVisibility false false { defaultFilters with showUnclaimed := false } = false) ∧
    (updateVisibility true true
        { defaultFilters with showUnclaimed := false, showPortIncomplete := false } = true ∧
     updateVisibility true false
        { defaultFilters with showUnclaimed := false, showPortIncomplete := false } = false ∧
     updateVisibility false true
        { defaultFilters with showUnclaimed := false, showPortIncomplete := false } = false ∧
     updateVisibility false false
        { defaultFilters with showUnclaimed := false, showPortIncomplete := false } = false) := by
  decide

/-- Composing the two filters of `getVisibleSystemStats` into one pass. -/
theorem visible_port_filter_length (systems : List VisSys) :
    (((systems.filter fun s => s.isVisible).filter fun s => s.primaryPortComplete).length : ℤ) =
      ((systems.filter fun s => s.isVisible && s.primaryPortComplete).length : ℤ) := by
  rw [List.filter_filter]
  simp only [Bool.and_comm]

/-- C10: for every system list, the statistics satisfy
`unclaimed = total − claimed` and `portIncomplete = claimed − portComplete`,
`portComplete` counts every visible system with `primaryPortComplete`
regardless of claim status, and `portIncomplete` is negative for a list
holding one visible unclaimed port-complete system. -/
theorem claim10_visible_stats :
    (∀ systems : List VisSys,
      (getVisibleSystemStats systems).unclaimed =
        (getVisibleSystemStats systems).total - (getVisibleSystemStats systems).claimed ∧
      (getVisibleSystemStats systems).portIncomplete =
        (getVisibleSystemStats systems).claimed - (getVisibleSystemStats systems).portComplete ∧
      (getVisibleSystemStats systems).portComplete =
        ((systems.filter fun s => s.isVisible && s.primaryPortComplete).length : ℤ)) ∧
    (getVisibleSystemStats
      [{ isVisible := true, isClaimed := false, primaryPortComplete := true }]).portIncomplete
      < 0 := by
  refine ⟨fun systems => ⟨rfl, rfl, ?_⟩, by decide⟩
  exact visible_port_filter_length systems

/-- C10 witness: the statistics identities evaluated on a concrete
two-system list. -/
theorem claim10_visible_stats_witness :
    (getVisibleSystemStats [⟨true, true, true⟩, ⟨true, false, true⟩]).unclaimed =
      (getVisibleSystemStats [⟨true, true, true⟩, ⟨true, false, true⟩]).total -
        (getVisibleSystemStats [⟨true, true, true⟩, ⟨true, false, true⟩]).claimed :=
  (claim10_visible_stats.1 [⟨true, true, true⟩, ⟨true, false, true⟩]).1

/-- The idle-orbit rotation accumulated over a frame sequence depends only
on the number of frames. -/
theorem totalRotationDeg_eq_length (dts : List ℚ) :
    totalRotationDeg dts = dts.length * (autoRotateSpeed * (16 / 1000)) := by
  induction dts with
  | nil => simp [totalRotationDeg]
  | cons d rest ih =>
    simp only [totalRotationDeg, List.map_cons, List.sum_cons, frameRotationDeg,
      List.length_cons] at ih ⊢
    rw [ih]
    push_cast
    ring

/-- C4 counterexample: one frame of 1000 ms and sixty frames of 50/3 ms
cover the same wall-clock second, yet the accumulated idle-orbit rotation
differs — `animate()` uses the fixed per-frame constant
`autoRotateSpeed * 0.016` and never the elapsed wall-clock time. -/
theorem claim4_counterexample :
    wallClock [1000] = wallClock (List.replicate 60 (50 / 3 : ℚ)) ∧
    totalRotationDeg [1000] ≠ totalRotationDeg (List.replicate 60 (50 / 3 : ℚ)) := by
  constructor
  · norm_num [wallClock, List.sum_replicate]
  · rw [totalRotationDeg_eq_length, totalRotationDeg_eq_length]
    norm_num [autoRotateSpeed]

/-- C4 amended: the per-frame idle-orbit angle is the constant
`autoRotateSpeed * 0.016` degrees, so the total rotation is a function of
the frame count alone — frame sequences with equally many frames rotate
equally, whatever their wall-clock durations. -/
theorem claim4_rotation_frame_count (dts1 dts2 : List ℚ)
    (h : dts1.length = dts2.length) :
    totalRotationDeg dts1 = totalRotationDeg dts2 := by
  rw [totalRotationDeg_eq_length, totalRotationDeg_eq_length, h]

/-- C4 witness: a 1000 ms frame and a 500 ms frame produce the same
rotation. -/
theorem claim4_rotation_frame_count_witness :
    totalRotationDeg [(1000 : ℚ)] = totalRotationDeg [(500 : ℚ)] :=
  claim4_rotation_frame_count [(1000 : ℚ)] [(500 : ℚ)] rfl

/-- C5 counterexample: normalizing the already-normalized record obtained
from a valid raw record drops it (the parsed coordinate object is no
longer a string), so `normalize (normalize r) ≠ normalize r` at this
concrete input. -/
theorem claim5_counterexample :
    (createSystemObject
        (mkRawSystem "Alpha" "1/2/3" "yes" "" "" "2" "" "" "" "Cmdr A" "")).bind
        createSystemObject ≠
      createSystemObject (mkRawSystem "Alpha" "1/2/3" "yes" "" "" "2" "" "" "" "Cmdr A" "") := by
  decide

/-- C5 amended: normalization is not idempotent — re-normalizing any
successfully normalized record always returns `null`, because the
`coordinates` field of a normalized record is the parsed `{x, y, z}`
object, which `parseCoordinates` rejects as non-string input. -/
theorem claim5_renormalize_null (r r' : SysObj) (h : createSystemObject r = some r') :
    createSystemObject r' = none := by
  unfold createSystemObject at h
  cases hsn : r.systemName with
  | vStr name =>
    rw [hsn] at h
    dsimp only at h
    by_cases h0 : jsTrim name = ""
    · rw [if_pos h0] at h; exact absurd h (by simp)
    · rw [if_neg h0] at h
      cases hc : parseCoordinatesVal r.coordinates with
      | none => rw [hc] at h; exact absurd h (by simp)
      | some c =>
        obtain ⟨x, y, z⟩ := c
        rw [hc] at h
        dsimp only at h
        by_cases h1 : cleanText r.cmdrName = "" ∧ parseBoolean r.isClaimed = false
        · rw [if_pos h1] at h; exact absurd h (by simp)
        · rw [if_neg h1] at h
          rw [Option.some.injEq] at h
          subst h
          unfold createSystemObject
          by_cases h2 : jsTrim (cleanText (JSVal.vStr name)) = ""
          · simp only [if_pos h2]
          · simp only [if_neg h2, parseCoordinatesVal]
  | vNum q => rw [hsn] at h; dsimp only at h; exact absurd h (by simp)
  | vBool b => rw [hsn] at h; dsimp only at h; exact absurd h (by simp)
  | vCoords x y z => rw [hsn] at h; dsimp only at h; exact absurd h (by simp)

/-- C5 witness: re-normalizing the normalized form of a concrete valid
record returns `null`. -/
theorem claim5_renormalize_null_witness :
    createSystemObject
      { systemName := .vStr "Alpha", coordinates := .vCoords 1 2 3, isClaimed := .vBool true,
        primaryPortComplete := .vBool false, isArchitect := .vBool false,
        orbitalSlots := .vNum 2, planetarySlots := .vNum 0, asteroidBaseSlots := .vNum 0,
        narrative := .vStr "", cmdrName := .vStr "Cmdr A", discordName := .vStr "" } = none :=
  claim5_renormalize_null (mkRawSystem "Alpha" "1/2/3" "yes" "" "" "2" "" "" "" "Cmdr A" "")
    { systemName := .vStr "Alpha", coordinates := .vCoords 1 2 3, isClaimed := .vBool true,
      primaryPortComplete := .vBool false, isArchitect := .vBool false,
      orbitalSlots := .vNum 2, planetarySlots := .vNum 0, asteroidBaseSlots := .vNum 0,
      narrative := .vStr "", cmdrName := .vStr "Cmdr A", discordName := .vStr "" }
    (by decide)

/-- C6: a raw record is dropped by `createSystemObject` exactly when its
name is blank, its coordinate string is unparsable, or it has no
commander name (after cleaning) and is not claimed; every other raw
record yields a normalized record, and the normalizer is a total
function, so per-record failures never propagate. -/
theorem claim6_drop_iff (name coords claimed port architect orb plan ast narr cmdr discord :
    String) :
    createSystemObject
        (mkRawSystem name coords claimed port architect orb plan ast narr cmdr discord) = none ↔
      jsTrim name = "" ∨ parseCoordinates coords = none ∨
        (cleanText (.vStr cmdr) = "" ∧ parseBoolean (.vStr claimed) = false) := by
  unfold createSystemObject mkRawSystem
  dsimp only [parseCoordinatesVal]
  by_cases h0 : jsTrim name = ""
  · simp [h0]
  · rw [if_neg h0]
    cases hc : parseCoordinates coords with
    | none => simp [h0, hc]
    | some c =>
      obtain ⟨x, y, z⟩ := c
      dsimp only
      by_cases h1 : cleanText (JSVal.vStr cmdr) = "" ∧ parseBoolean (JSVal.vStr claimed) = false
      · simp [h0, hc, h1]
      · simp [h0, hc, h1]

/-- C6 witness: a record with an empty name is dropped, by the
left-to-right instance of the characterization. -/
theorem claim6_drop_iff_witness :
    createSystemObject (mkRawSystem "" "1/2/3" "yes" "" "" "" "" "" "" "Cmdr" "") = none :=
  (claim6_drop_iff "" "1/2/3" "yes" "" "" "" "" "" "" "Cmdr" "").mpr (Or.inl (by decide))

/-- C7 counterexample: on `"1,2,3//"` the `/` split yields three fields of
which two are not numbers, and the code fails without ever trying the `,`
delimiter — although splitting on `,` would have produced three finite
numbers, as the specification's reading (delimiters tried until three
finite numbers are obtained) requires. -/
theorem claim7_counterexample :
    parseCoordinates "1,2,3//" = none ∧
      parseCoordinatesSpecWords "1,2,3//" = some (1, 2, 3) := by
  constructor
  · decide
  · decide

/-- C7 amended: the three example strings all parse to
`(10.5, -2.25, 0)`; the delimiters `/`, `,`, whitespace are tried in that
order until one yields exactly three fields, and the three fields must
then all parse as finite numbers — with no fallback to a later delimiter,
as `"1,2,3//"` (three `/`-fields, one unparsable) shows. -/
theorem claim7_delimiters :
    parseCoordinates "10.5 / -2.25 / 0" = some ((10.5 : ℚ), (-2.25 : ℚ), (0 : ℚ)) ∧
    parseCoordinates "10.5, -2.25, 0" = some ((10.5 : ℚ), (-2.25 : ℚ), (0 : ℚ)) ∧
    parseCoordinates "10.5 -2.25 0" = some ((10.5 : ℚ), (-2.25 : ℚ), (0 : ℚ)) ∧
    parseCoordinates "1,2,3//" = none := by
  have hx : (mkRat 21 2 : ℚ) = (10.5 : ℚ) := by norm_num [Rat.mkRat_eq_div]
  have hy : (mkRat (-9) 4 : ℚ) = (-2.25 : ℚ) := by norm_num [Rat.mkRat_eq_div]
  have e1 : parseCoordinates "10.5 / -2.25 / 0" = some (mkRat 21 2, mkRat (-9) 4, 0) := by decide
  have e2 : parseCoordinates "10.5, -2.25, 0" = some (mkRat 21 2, mkRat (-9) 4, 0) := by decide
  have e3 : parseCoordinates "10.5 -2.25 0" = some (mkRat 21 2, mkRat (-9) 4, 0) := by decide
  refine ⟨?_, ?_, ?_, by decide⟩
  · rw [e1, hx, hy]
  · rw [e2, hx, hy]
  · rw [e3, hx, hy]

/-- C8 counterexample: the raw slot value `"-5"` survives normalization as
the negative integer `-5`, violating the claimed `≥ 0` invariant. -/
theorem claim8_counterexample :
    (createSystemObject (mkRawSystem "Beta" "1/2/3" "yes" "" "" "-5" "" "" "" "Cmdr B" "")).map
        SysObj.orbitalSlots = some (JSVal.vNum (-5)) ∧ ((-5 : ℚ) < 0) := by
  constructor
  · decide
  · decide

/-- C8 amended: in every successfully normalized record the three slot
fields are integers (so the parse never throws), and any slot whose raw
field does not parse as an integer defaults to `0`; the value may however
be negative when the raw field is a negative integer string. -/
theorem claim8_slots (name coords claimed port architect orb plan ast narr cmdr discord :
    String) (r' : SysObj)
    (h : createSystemObject
      (mkRawSystem name coords claimed port architect orb plan ast narr cmdr discord) = some r') :
    (∃ n : ℤ, r'.orbitalSlots = .vNum (n : ℚ)) ∧
    (∃ n : ℤ, r'.planetarySlots = .vNum (n : ℚ)) ∧
    (∃ n : ℤ, r'.asteroidBaseSlots = .vNum (n : ℚ)) ∧
    (jsParseInt orb = none → r'.orbitalSlots = .vNum 0) ∧
    (jsParseInt plan = none → r'.planetarySlots = .vNum 0) ∧
    (jsParseInt ast = none → r'.asteroidBaseSlots = .vNum 0) := by
  unfold createSystemObject mkRawSystem at h
  dsimp only at h
  by_cases h0 : jsTrim name = ""
  · rw [if_pos h0] at h; exact absurd h (by simp)
  · rw [if_neg h0] at h
    cases hc : parseCoordinatesVal (JSVal.vStr coords) with
    | none => rw [hc] at h; exact absurd h (by simp)
    | some c =>
      obtain ⟨x, y, z⟩ := c
      rw [hc] at h
      dsimp only at h
      by_cases h1 : cleanText (JSVal.vStr cmdr) = "" ∧ parseBoolean (JSVal.vStr claimed) = false
      · rw [if_pos h1] at h; exact absurd h (by simp)
      · rw [if_neg h1] at h
        rw [Option.some.injEq] at h
        subst h
        refine ⟨⟨parseNumber (.vStr orb), rfl⟩, ⟨parseNumber (.vStr plan), rfl⟩,
          ⟨parseNumber (.vStr ast), rfl⟩, ?_, ?_, ?_⟩ <;>
          intro hn <;> simp [parseNumber, hn]

/-- C8 witness: the slot properties evaluated on a record whose slot
fields are the unparsable string `"abc"`, which defaults to `0`. -/
theorem claim8_slots_witness :
    (∃ n : ℤ, (SysObj.orbitalSlots
      { systemName := .vStr "Gamma", coordinates := .vCoords 1 2 3, isClaimed := .vBool true,
        primaryPortComplete := .vBool false, isArchitect := .vBool false,
        orbitalSlots := .vNum 0, planetarySlots := .vNum 0, asteroidBaseSlots := .vNum 0,
        narrative := .vStr "", cmdrName := .vStr "Cmdr C", discordName := .vStr "" })
        = .vNum (n : ℚ)) ∧
    (SysObj.orbitalSlots
      { systemName := .vStr "Gamma", coordinates := .vCoords 1 2 3, isClaimed := .vBool true,
        primaryPortComplete := .vBool false, isArchitect := .vBool false,
        orbitalSlots := .vNum 0, planetarySlots := .vNum 0, asteroidBaseSlots := .vNum 0,
        narrative := .vStr "", cmdrName := .vStr "Cmdr C", discordName := .vStr "" })
        = .vNum 0 := by
  have h := claim8_slots "Gamma" "1/2/3" "yes" "" "" "abc" "abc" "abc" "" "Cmdr C" ""
    { systemName := .vStr "Gamma", coordinates := .vCoords 1 2 3, isClaimed := .vBool true,
      primaryPortComplete := .vBool false, isArchitect := .vBool false,
      orbitalSlots := .vNum 0, planetarySlots := .vNum 0, asteroidBaseSlots := .vNum 0,
      narrative := .vStr "", cmdrName := .vStr "Cmdr C", discordName := .vStr "" }
    (by decide)
  exact ⟨h.1, h.2.2.2.1 (by decide)⟩

/-- C2: for every pointer-move sample, an unchanged picked target emits no
events; a changed target emits exactly one hover-end for the previous
target (if any) followed by exactly one hover-start for the new target
(if any); and an empty-intersection pick with a prior hover (outside the
auto-rotation guard) emits exactly the single hover-end for it. -/
theorem claim2_hover_events (st : HoverState) (hits : List PickHit) :
    ((onMouseMove st hits).1.hovered = st.hovered → (onMouseMove st hits).2 = []) ∧
    ((onMouseMove st hits).1.hovered ≠ st.hovered →
      (onMouseMove st hits).2 =
        st.hovered.toList.map HoverEv.hoverEnd ++
          (onMouseMove st hits).1.hovered.toList.map HoverEv.hoverStart ∧
      countEnd (onMouseMove st hits).2 = (if st.hovered.isSome then 1 else 0) ∧
      countStart (onMouseMove st hits).2 =
        (if (onMouseMove st hits).1.hovered.isSome then 1 else 0)) ∧
    (∀ s, st.hovered = some s → (st.autoRotate && !st.userHasInteracted) = false →
      hits = [] → (onMouseMove st hits).2 = [HoverEv.hoverEnd s]) := by
  by_cases hg : st.autoRotate && !st.userHasInteracted
  · have hr : onMouseMove st hits = (st, []) := by simp [onMouseMove, hg]
    rw [hr]
    refine ⟨fun _ => rfl, fun hne => absurd rfl hne, ?_⟩
    intro s _ hguard _
    rw [hguard] at hg
    exact absurd hg (by simp)
  · have hg' : (st.autoRotate && !st.userHasInteracted) = false := by
      cases hb : st.autoRotate && !st.userHasInteracted
      · rfl
      · exact absurd hb hg
    by_cases he : pickClosest hits = st.hovered
    · have hr : onMouseMove st hits = (st, []) := by simp [onMouseMove, hg', he]
      rw [hr]
      refine ⟨fun _ => rfl, fun hne => absurd rfl hne, ?_⟩
      intro s hs _ hhits
      subst hhits
      rw [hs] at he
      exact absurd he (by simp [pickClosest])
    · have hr : onMouseMove st hits =
          ({ st with hovered := pickClosest hits },
            st.hovered.toList.map HoverEv.hoverEnd ++
              (pickClosest hits).toList.map HoverEv.hoverStart) := by
        simp [onMouseMove, hg', he]
      rw [hr]
      refine ⟨fun hsame => absurd hsame he, fun _ => ⟨rfl, ?_, ?_⟩, ?_⟩
      · cases st.hovered <;> cases hpc : pickClosest hits <;>
          simp [hpc, countEnd, List.countP_append]
      · cases st.hovered <;> cases hpc : pickClosest hits <;>
          simp [hpc, countStart, List.countP_append]
      · intro s hs _ hhits
        subst hhits
        rw [hs]
        simp [pickClosest]

/-- C2 witness: an empty pick while system 5 is hovered (and the guard is
off) emits exactly its hover-end. -/
theorem claim2_hover_events_witness :
    (onMouseMove { hovered := some 5, autoRotate := false, userHasInteracted := true } []).2 =
      [HoverEv.hoverEnd 5] :=
  (claim2_hover_events { hovered := some 5, autoRotate := false, userHasInteracted := true }
    []).2.2 5 rfl rfl rfl

/-- A step of the camera state machine never re-enables auto-rotation. -/
theorem camStep_keeps_autoRotate_off (st : CamState) (e : CamEvent)
    (h : st.autoRotate = false) : (camStep st e).autoRotate = false := by
  cases e <;> simp [camStep, h]

/-- Folding any event sequence never re-enables auto-rotation. -/
theorem foldl_camStep_keeps_autoRotate_off (es : List CamEvent) (st : CamState)
    (h : st.autoRotate = false) : (es.foldl camStep st).autoRotate = false := by
  induction es generalizing st with
  | nil => exact h
  | cons e rest ih => exact ih _ (camStep_keeps_autoRotate_off st e h)

/-- The two flags are complementary in every reachable state. -/
theorem camStep_flag_inv (st : CamState) (e : CamEvent)
    (h : st.userHasInteracted = !st.autoRotate) :
    (camStep st e).userHasInteracted = !(camStep st e).autoRotate := by
  cases e <;> cases hb : st.autoRotate <;> simp [camStep, hb, h]

/-- The flag complement invariant holds along any run. -/
theorem foldl_camStep_flag_inv (es : List CamEvent) (st : CamState)
    (h : st.userHasInteracted = !st.autoRotate) :
    (es.foldl camStep st).userHasInteracted = !(es.foldl camStep st).autoRotate := by
  induction es generalizing st with
  | nil => exact h
  | cons e rest ih => exact ih _ (camStep_flag_inv st e h)

/-- An interaction event always leaves auto-rotation disabled. -/
theorem camStep_interaction_stops (st : CamState) (e : CamEvent)
    (hinv : st.userHasInteracted = !st.autoRotate) (h : isInteraction e = true) :
    (camStep st e).autoRotate = false := by
  cases e with
  | controlsStart => cases hb : st.autoRotate <;> simp [camStep, hb]
  | mouseDown =>
    cases hb : st.autoRotate
    · simp [camStep, hb]
    · rw [hb] at hinv
      simp at hinv
      simp [camStep, hb, hinv]
  | frame => exact absurd h (by simp [isInteraction])

/-- C3: for every session event sequence containing an interaction event
(OrbitControls `start`, i.e. drag/wheel/touch, or `mousedown`), the state
after the full sequence has auto-rotation permanently off and the
`animate()` idle guard (auto-orbit and tour) permanently false, whatever
events — including arbitrarily long idle periods — follow the
interaction. -/
theorem claim3_no_return_to_idle (pre post : List CamEvent) (e : CamEvent)
    (h : isInteraction e = true) :
    (camRun (pre ++ e :: post)).autoRotate = false ∧
      idleAuto (camRun (pre ++ e :: post)) = false := by
  have hsplit : camRun (pre ++ e :: post) =
      post.foldl camStep (camStep (camRun pre) e) := by
    simp [camRun, List.foldl_append]
  have hinv : (camRun pre).userHasInteracted = !(camRun pre).autoRotate :=
    foldl_camStep_flag_inv pre camInit (by simp [camInit])
  have hstop : (camStep (camRun pre) e).autoRotate = false :=
    camStep_interaction_stops (camRun pre) e hinv h
  have hoff : (camRun (pre ++ e :: post)).autoRotate = false := by
    rw [hsplit]
    exact foldl_camStep_keeps_autoRotate_off post _ hstop
  exact ⟨hoff, by simp [idleAuto, hoff]⟩

/-- C3 witness: a `mousedown` framed by idle frames leaves auto-rotation
off for the rest of the session. -/
theorem claim3_no_return_to_idle_witness :
    (camRun ([CamEvent.frame] ++ CamEvent.mouseDown :: [CamEvent.frame])).autoRotate = false ∧
      idleAuto (camRun ([CamEvent.frame] ++ CamEvent.mouseDown :: [CamEvent.frame])) = false :=
  claim3_no_return_to_idle [CamEvent.frame] [CamEvent.frame] CamEvent.mouseDown rfl

/-- The keys of a `Map.set`: unchanged when the key is present, appended
otherwise. -/
theorem mapSet_keys (m : List (String × RouteSystemData)) (k : String) (v : RouteSystemData) :
    (mapSet m k v).map Prod.fst =
      if k ∈ m.map Prod.fst then m.map Prod.fst else m.map Prod.fst ++ [k] := by
  unfold mapSet
  by_cases h : k ∈ m.map Prod.fst
  · rw [if_pos h, if_pos h, List.map_map]
    apply List.map_congr_left
    intro p _
    by_cases hp : p.1 = k
    · simp [Function.comp, hp]
    · simp [Function.comp, hp]
  · rw [if_neg h, if_neg h]
    simp

/-- The `points` array collects one position per resolved waypoint
occurrence, in route order. -/
theorem foldl_routeStep_points (systems : List RouteSystem) (route : List RouteWaypoint)
    (acc : List (ℚ × ℚ × ℚ) × List (String × RouteSystemData)) :
    (route.foldl (routeStep systems) acc).1 =
      acc.1 ++ (route.filterMap (resolveWp systems)).map (fun p => p.2.position) := by
  induction route generalizing acc with
  | nil => simp
  | cons wp rest ih =>
    simp only [List.foldl_cons, List.filterMap_cons]
    cases h : resolveWp systems wp with
    | none => simp [routeStep, h, ih]
    | some nd =>
      obtain ⟨n, d⟩ := nd
      simp [routeStep, h, ih]

/-- The keys of the `routeSystems` map are the resolved waypoint names
folded with first-occurrence deduplication. -/
theorem foldl_routeStep_keys (systems : List RouteSystem) (route : List RouteWaypoint)
    (acc : List (ℚ × ℚ × ℚ) × List (String × RouteSystemData)) :
    ((route.foldl (routeStep systems) acc).2).map Prod.fst =
      nameFold (acc.2.map Prod.fst) ((route.filterMap (resolveWp systems)).map Prod.fst) := by
  induction route generalizing acc with
  | nil => simp [nameFold]
  | cons wp rest ih =>
    simp only [List.foldl_cons, List.filterMap_cons]
    cases h : resolveWp systems wp with
    | none => simp [routeStep, h, ih]
    | some nd =>
      obtain ⟨n, d⟩ := nd
      simp only [routeStep, h, List.map_cons, nameFold]
      rw [ih]
      congr 1
      exact mapSet_keys acc.2 n d

/-- `nameFold` preserves freedom from duplicates. -/
theorem nameFold_nodup (l : List String) : ∀ ks : List String, ks.Nodup →
    (nameFold ks l).Nodup := by
  induction l with
  | nil => intro ks h; exact h
  | cons n rest ih =>
    intro ks h
    simp only [nameFold]
    by_cases hn : n ∈ ks
    · rw [if_pos hn]; exact ih ks h
    · rw [if_neg hn]
      refine ih _ ?_
      simp [List.nodup_append, h, hn]

/-- Membership in a `nameFold` result. -/
theorem mem_nameFold (l : List String) : ∀ (ks : List String) (x : String),
    x ∈ nameFold ks l ↔ x ∈ ks ∨ x ∈ l := by
  induction l with
  | nil => simp [nameFold]
  | cons n rest ih =>
    intro ks x
    simp only [nameFold]
    by_cases hn : n ∈ ks
    · rw [if_pos hn, ih]
      simp only [List.mem_cons]
      constructor
      · tauto
      · rintro (h | h | h)
        · exact Or.inl h
        · exact Or.inl (h ▸ hn)
        · exact Or.inr h
    · rw [if_neg hn, ih]
      simp only [List.mem_append, List.mem_cons, List.mem_singleton]
      tauto

/-- Folding names into an empty accumulator keeps exactly one occurrence
per distinct name. -/
theorem nameFold_nil_length (l : List String) :
    (nameFold [] l).length = l.dedup.length := by
  have h1 : (nameFold [] l).Nodup := nameFold_nodup l [] (by simp)
  have h2 : (nameFold [] l).toFinset = l.toFinset := by
    ext x
    simp [List.mem_toFinset, mem_nameFold]
  have h3 : (nameFold [] l).toFinset.card = (nameFold [] l).length := by
    rw [List.card_toFinset, h1.dedup]
  rw [← h3, h2, List.card_toFinset]

/-- C9 counterexample: with catalog `{A}` and the route `[A, A]` both
waypoints resolve, yet the rebuilt overlay carries a single marker — the
name-keyed `routeSystems` map collapses duplicate waypoints — so the
marker count differs from the resolved-waypoint count of the second
list. -/
theorem claim9_counterexample :
    sceneMarkerCount
        (createRouteVisualization true
          [{ name := "A", coords := some (some 1, some 2, some 3), requirePermit := false }]
          [⟨"A", "", ""⟩, ⟨"A", "", ""⟩]
          (createRouteVisualization true
            [{ name := "A", coords := some (some 1, some 2, some 3), requirePermit := false }]
            [⟨"A", "", ""⟩] none)) = 1 ∧
      (resolvedNames
        [{ name := "A", coords := some (some 1, some 2, some 3), requirePermit := false }]
        [⟨"A", "", ""⟩, ⟨"A", "", ""⟩]).length = 2 ∧
      (1 : ℕ) ≠ 2 := by
  decide

/-- C9 amended: with the catalog loaded, rebuilding the overlay yields a
scene whose marker count equals the number of distinct resolved waypoint
names of the new route (duplicate waypoint names collapse into one
marker), and the result is independent of whatever overlay was in the
scene before — no residual markers from a previous waypoint list. -/
theorem claim9_rebuild (systems : List RouteSystem) (route : List RouteWaypoint)
    (prev : Option RouteGroup) :
    sceneMarkerCount (createRouteVisualization true systems route prev) =
      (resolvedNames systems route).dedup.length ∧
    ∀ prev' : Option RouteGroup, createRouteVisualization true systems route prev =
      createRouteVisualization true systems route prev' := by
  constructor
  · unfold createRouteVisualization
    simp only [Bool.not_true, Bool.false_eq_true, if_false]
    by_cases hp : (resolveWaypoints systems route).1 = []
    · rw [if_pos hp]
      have hpts := foldl_routeStep_points systems route ([], [])
      rw [show (resolveWaypoints systems route).1 =
          (route.foldl (routeStep systems) ([], [])).1 from rfl] at hp
      rw [hpts] at hp
      simp only [List.nil_append, List.map_eq_nil_iff] at hp
      simp [sceneMarkerCount, resolvedNames, hp]
    · rw [if_neg hp]
      have hkeys := foldl_routeStep_keys systems route ([], [])
      simp only [List.map_nil] at hkeys
      have hlen : ((resolveWaypoints systems route).2.map Prod.fst).length =
          (nameFold [] ((route.filterMap (resolveWp systems)).map Prod.fst)).length := by
        rw [show (resolveWaypoints systems route).2 =
            (route.foldl (routeStep systems) ([], [])).2 from rfl, hkeys]
      simp only [List.length_map] at hlen
      simp only [sceneMarkerCount, List.length_map, resolvedNames]
      rw [hlen, nameFold_nil_length]
  · intro prev'
    rfl

/-- C9 witness: the rebuild property evaluated for a one-waypoint
route. -/
theorem claim9_rebuild_witness :
    sceneMarkerCount (createRouteVisualization true
        [{ name := "A", coords := some (some 1, some 2, some 3), requirePermit := false }]
        [⟨"A", "", ""⟩] none) =
      (resolvedNames
        [{ name := "A", coords := some (some 1, some 2, some 3), requirePermit := false }]
        [⟨"A", "", ""⟩]).dedup.length :=
  (claim9_rebuild
    [{ name := "A", coords := some (some 1, some 2, some 3), requirePermit := false }]
    [⟨"A", "", ""⟩] none).1
